import Mathlib

/-!
# Verification of the console control-plane core

Shallow embedding of the Go sources of `jabberwocky238/console`:
the custom-domain verification state machine (`k8s/customdomain.go`,
and its TXT+CNAME variant), the worker reconciler ensure-steps
(`k8s/controller/worker.go`), and the worker sync jobs
(`handlers/jobs` worker job types).

External effects (Kubernetes API calls, DNS lookups, database writes)
are modelled explicitly: lookup results and API-call outcomes are
inputs, and the operations a function issues are part of its result.
-/

namespace Console

/-- Status of a custom-domain claim (`DomainStatus` in `k8s/customdomain.go`). -/
inductive DomainStatus where
  | pending
  | success
  | error
deriving DecidableEq, Repr

/-- One attempt's view of external DNS: the TXT lookup on the record name
(`none` = lookup error) and the CNAME lookup on the domain
(`none` = lookup error). -/
structure DNSAttempt where
  txt : Option (List String)
  cname : Option String

/-- A custom-domain claim (`CustomDomain` struct in `k8s/customdomain.go`);
the database id and creation timestamp are omitted as no claim depends on them. -/
structure CustomDomain where
  cdid : String
  domain : String
  target : String
  txtName : String
  txtValue : String
  status : DomainStatus
  userUID : String
deriving Repr

/-- `NewCustomDomain`: builds the claim record. The random token and the
derived claim id are inputs here (the Go code draws them from a CSPRNG);
the TXT name/value derivation and the initial `pending` status are the code's. -/
def NewCustomDomain (cdid token userUID domain target : String) : CustomDomain :=
  { cdid := cdid
    domain := domain
    target := target
    txtName := "_combinator-verify." ++ domain
    txtValue := "combinator-verify=" ++ token
    status := DomainStatus.pending
    userUID := userUID }

/-- `VerifyTXT` (TXT+CNAME variant): a DNS lookup error yields `false`;
otherwise the attempt succeeds iff the returned records contain the
expected TXT value (`slices.Contains(records, cd.TXTValue)`). -/
def VerifyTXT (txtValue : String) (lookup : Option (List String)) : Bool :=
  match lookup with
  | none => false
  | some records => records.contains txtValue

/-- Removes one trailing dot, as in
`if len(s) > 0 && s[len(s)-1] == '.' { s = s[:len(s)-1] }`. -/
def stripTrailingDot (s : String) : String :=
  match s.data.getLast? with
  | some c => if c = '.' then String.mk s.data.dropLast else s
  | none => s

/-- `VerifyCNAME`: a lookup error yields `false`; otherwise the resolved
canonical name (with one trailing dot removed) must equal the target with
one trailing dot removed, or equal the target verbatim. -/
def VerifyCNAME (target : String) (lookup : Option String) : Bool :=
  match lookup with
  | none => false
  | some cname =>
      let cname := stripTrailingDot cname
      let targetWithoutDot := stripTrailingDot target
      cname == targetWithoutDot || cname == target

/-- Outcomes of the three provisioning API calls in `CreateIngressRoute`:
whether the ExternalName Service create, the Certificate create, and the
IngressRoute create would each succeed. -/
structure ProvisionEnv where
  svcOk : Bool
  certOk : Bool
  routeOk : Bool

/-- What a `CreateIngressRoute` run did: which creation steps were attempted,
and whether the whole call returned without error. -/
structure ProvisionOutcome where
  svcAttempted : Bool
  certAttempted : Bool
  routeAttempted : Bool
  ok : Bool
deriving DecidableEq, Repr

/-- `CreateIngressRoute` (TXT+CNAME variant): creates the ExternalName
Service, then the Certificate, then the IngressRoute, returning on the
first failure so later steps are not attempted. -/
def CreateIngressRoute (env : ProvisionEnv) : ProvisionOutcome :=
  if !env.svcOk then
    { svcAttempted := true, certAttempted := false, routeAttempted := false, ok := false }
  else if !env.certOk then
    { svcAttempted := true, certAttempted := true, routeAttempted := false, ok := false }
  else
    { svcAttempted := true, certAttempted := true, routeAttempted := env.svcOk && env.certOk,
      ok := env.routeOk }

/-- Observable outcome of one `StartVerification` run: the claim's final
in-memory status, how many loop iterations (DNS check attempts) ran, the
total slept time in seconds, how many times provisioning was invoked, and
the statuses persisted to the database, in order. -/
structure VerifyOutcome where
  status : DomainStatus
  attempts : Nat
  waitSeconds : Nat
  provisionCalls : Nat
  persisted : List DomainStatus
deriving DecidableEq, Repr

/-- The body of `StartVerification`'s goroutine (TXT+CNAME variant) from
iteration index `i` with `remaining` iterations left of the `for i := range 12`
loop. Each iteration sleeps 5 seconds, then evaluates both checks; on joint
success it sets and persists `success`, invokes `CreateIngressRoute`, and on a
provisioning error sets and persists `error`; the loop stops either way. When
all iterations fail it sets and persists `error`. -/
def verifyAux (cd : CustomDomain) (dns : Nat → DNSAttempt) (env : ProvisionEnv) :
    Nat → Nat → VerifyOutcome
  | _, 0 =>
      { status := DomainStatus.error, attempts := 0, waitSeconds := 0,
        provisionCalls := 0, persisted := [DomainStatus.error] }
  | i, r + 1 =>
      let a := dns i
      if VerifyTXT cd.txtValue a.txt && VerifyCNAME cd.target a.cname then
        if (CreateIngressRoute env).ok then
          { status := DomainStatus.success, attempts := 1, waitSeconds := 5,
            provisionCalls := 1, persisted := [DomainStatus.success] }
        else
          { status := DomainStatus.error, attempts := 1, waitSeconds := 5,
            provisionCalls := 1, persisted := [DomainStatus.success, DomainStatus.error] }
      else
        let rest := verifyAux cd dns env (i + 1) r
        { status := rest.status, attempts := rest.attempts + 1,
          waitSeconds := rest.waitSeconds + 5, provisionCalls := rest.provisionCalls,
          persisted := rest.persisted }

/-- `StartVerification` (TXT+CNAME variant): 12 iterations, 5 s interval. -/
def StartVerification (cd : CustomDomain) (dns : Nat → DNSAttempt) (env : ProvisionEnv) :
    VerifyOutcome :=
  verifyAux cd dns env 0 12

/-- Deterministic name of a claim's provisioned sub-resources:
`fmt.Sprintf("custom-domain-%s", cdid)`. -/
def customDomainResourceName (cdid : String) : String :=
  "custom-domain-" ++ cdid

/-- The external operations `DeleteCustomDomain` issues, in order. -/
inductive CDDeleteOp where
  | deleteClaimRecord (cdid : String)
  | deleteService (name : String)
  | deleteIngressRoute (name : String)
  | deleteCertificate (name : String)
deriving DecidableEq, Repr

/-- `DeleteCustomDomain` (TXT+CNAME variant): reads the claim (result unused
here), deletes the database record — any failure there is the only error the
function can return — then deletes the Service, the IngressRoute and the
Certificate under the deterministic name, discarding the delete calls'
results, so missing sub-resources (not-found) cannot produce an error.
`dbDeleteOk` is the database delete's outcome; the three `*Exists` flags say
whether each sub-resource is present (the code never inspects them). -/
def DeleteCustomDomain (cdid : String) (dbDeleteOk : Bool)
    (svcExists routeExists certExists : Bool) : Except String (List CDDeleteOp) :=
  if !dbDeleteOk then
    Except.error "delete custom domain record failed"
  else
    let _ := (svcExists, routeExists, certExists)
    let name := customDomainResourceName cdid
    Except.ok [CDDeleteOp.deleteClaimRecord cdid,
               CDDeleteOp.deleteService name,
               CDDeleteOp.deleteIngressRoute name,
               CDDeleteOp.deleteCertificate name]

/-! ## Worker reconciler (`k8s/controller`) -/

/-- Result of a Kubernetes `Get` call: the object, a not-found error, or any
other error. -/
inductive K8sGet (α : Type) where
  | found (a : α)
  | notFound
  | err
deriving DecidableEq, Repr

/-- Environment data of a ConfigMap or Secret, as a key-value association
list (duplicate-free by construction of the operations below, like a Go map). -/
abbrev EnvMap := List (String × String)

/-- Go map read `m[k]`. -/
def EnvMap.get : EnvMap → String → Option String
  | [], _ => none
  | (k', v) :: t, k => if k' == k then some v else EnvMap.get t k

/-- Go map `delete(m, k)`. -/
def EnvMap.erase : EnvMap → String → EnvMap
  | [], _ => []
  | (k', v) :: t, k => if k' == k then EnvMap.erase t k else (k', v) :: EnvMap.erase t k

/-- Go map write `m[k] = v` (overwrite). -/
def EnvMap.insert (m : EnvMap) (k v : String) : EnvMap :=
  EnvMap.erase m k ++ [(k, v)]

/-- Go `maps.Copy(dst, src)`: every key of `src` is written into `dst`. -/
def EnvMap.copyFrom (dst src : EnvMap) : EnvMap :=
  src.foldl (fun acc p => EnvMap.insert acc p.1 p.2) dst

/-- `ReservedEnvKeys` in `k8s/controller/worker.go`. -/
def ReservedEnvKeys : List String :=
  ["COMBINATOR_API_ENDPOINT", "RAYSAIL_UID", "RAYSAIL_SECRET_KEY"]

/-- The namespace the combinator runs in (`k8s` package constant,
value `"combinator"` per `k8s.go`). -/
def CombinatorNamespace : String := "combinator"

/-- `WorkerAppSpec` (`k8s/controller/types.go`). `maxReplicas` is a Go `int`. -/
structure WorkerAppSpec where
  workerID : String
  ownerID : String
  ownerSK : String
  image : String
  port : Nat
  assignedCPU : String
  assignedMemory : String
  assignedDisk : String
  maxReplicas : Int
  mainRegion : String
deriving Repr

/-- `WorkerName`: `fmt.Sprintf("w-%s-%s", workerID, ownerID)`. -/
def WorkerName (workerID ownerID : String) : String :=
  "w-" ++ workerID ++ "-" ++ ownerID

/-- `(*WorkerAppSpec).Name()`. -/
def WorkerAppSpec.name (w : WorkerAppSpec) : String :=
  WorkerName w.workerID w.ownerID

/-- `EnvConfigMapName`: `"%s-env"`. -/
def WorkerAppSpec.envConfigMapName (w : WorkerAppSpec) : String :=
  w.name ++ "-env"

/-- `SecretName`: `"%s-secret"`. -/
def WorkerAppSpec.secretName (w : WorkerAppSpec) : String :=
  w.name ++ "-secret"

/-- `CombinatorEndpoint`. -/
def WorkerAppSpec.combinatorEndpoint (w : WorkerAppSpec) : String :=
  "http://combinator." ++ CombinatorNamespace ++ ".svc.cluster.local:8899"

/-- `systemSecretData`: the reserved key-value pairs injected into worker
Secrets (Go `[]byte` values modelled as strings). -/
def WorkerAppSpec.systemSecretData (w : WorkerAppSpec) : EnvMap :=
  [("COMBINATOR_API_ENDPOINT", w.combinatorEndpoint),
   ("RAYSAIL_UID", w.ownerID),
   ("RAYSAIL_SECRET_KEY", w.ownerSK)]

/-- `EnsureConfigMap`: if the env ConfigMap is absent, create it with empty
data; on any other `Get` error return the error; otherwise delete every
reserved key found in its data and issue an `Update` only when at least one
key was removed. Returns the ConfigMap's data after the call together with
whether a write (`Create` or `Update`) was issued. -/
def EnsureConfigMap (w : WorkerAppSpec) (st : K8sGet EnvMap) :
    Except String (EnvMap × Bool) :=
  match st with
  | K8sGet.notFound => Except.ok ([], true)
  | K8sGet.err => Except.error "get configmap failed"
  | K8sGet.found existing =>
      let stripped := ReservedEnvKeys.foldl (fun acc k => EnvMap.erase acc k) existing
      let dirty := ReservedEnvKeys.any (fun k => (EnvMap.get existing k).isSome)
      Except.ok (stripped, dirty)

/-- `EnsureSecret`: if the worker Secret is absent, create it holding exactly
the system secret data; on any other `Get` error return the error; otherwise
force-inject the system pairs over the existing data (`maps.Copy`) and update.
Returns the Secret's data after the call. -/
def EnsureSecret (w : WorkerAppSpec) (st : K8sGet EnvMap) : Except String EnvMap :=
  match st with
  | K8sGet.notFound => Except.ok w.systemSecretData
  | K8sGet.err => Except.error "get secret failed"
  | K8sGet.found existing => Except.ok (EnvMap.copyFrom existing w.systemSecretData)

/-- The resource quantities and replica count `EnsureDeployment` puts into the
Deployment it builds; limits and requests use the same three quantities. -/
structure DeploymentShape where
  name : String
  replicas : Int
  cpu : String
  memory : String
  disk : String
  image : String
  port : Nat
deriving DecidableEq, Repr

/-- The Deployment `EnsureDeployment` builds: replicas default to 1 unless
`MaxReplicas > 0`, and each blank resource quantity is defaulted
(CPU `"1"`, memory `"500Mi"`, ephemeral storage `"2Gi"`). -/
def buildDeployment (w : WorkerAppSpec) : DeploymentShape :=
  { name := w.name
    replicas := if w.maxReplicas > 0 then w.maxReplicas else 1
    cpu := if w.assignedCPU = "" then "1" else w.assignedCPU
    memory := if w.assignedMemory = "" then "500Mi" else w.assignedMemory
    disk := if w.assignedDisk = "" then "2Gi" else w.assignedDisk
    image := w.image
    port := w.port }

/-- The operations `EnsureService` can issue against the Services API. -/
inductive ServiceOp where
  | create (name : String) (port : Nat)
  | update (name : String) (port : Nat)
deriving DecidableEq, Repr

/-- A Service as far as the reconciler shapes it: name and port. -/
structure ServiceShape where
  name : String
  port : Nat
deriving DecidableEq, Repr

/-- `EnsureService`: create the Service only when the `Get` reports not-found;
when it exists, do nothing (no update is ever issued); any other `Get` error
is returned. The result is the list of issued write operations and the
Service's resulting shape. -/
def EnsureService (w : WorkerAppSpec) (st : K8sGet ServiceShape) :
    Except String (List ServiceOp × ServiceShape) :=
  match st with
  | K8sGet.notFound =>
      Except.ok ([ServiceOp.create w.name w.port], { name := w.name, port := w.port })
  | K8sGet.err => Except.error "get service failed"
  | K8sGet.found existing => Except.ok ([], existing)

/-- Result of one `syncSecretJob.Do` run: the secret data written by the
`Update` (or `none` when no write happened), whether the job returned an
error, and the worker status persisted to the database (if any). -/
structure SyncSecretResult where
  written : Option EnvMap
  retErr : Bool
  dbStatus : Option String
deriving DecidableEq, Repr

/-- `syncSecretJob.Do`: fetch the worker's Secret by its derived name; any
fetch failure returns `nil` without mutating anything; otherwise replace the
Secret's whole data map with the job's key/value map and update, marking the
worker `error` (and returning an error) when the update fails and `active`
otherwise. -/
def syncSecretDo (jobData : EnvMap) (st : K8sGet EnvMap) (updateOk : Bool) :
    SyncSecretResult :=
  match st with
  | K8sGet.notFound => { written := none, retErr := false, dbStatus := none }
  | K8sGet.err => { written := none, retErr := false, dbStatus := none }
  | K8sGet.found _ =>
      if updateOk then
        { written := some jobData, retErr := false, dbStatus := some "active" }
      else
        { written := some jobData, retErr := true, dbStatus := some "error" }

/-! ## Map lemmas -/

theorem EnvMap.get_erase (m : EnvMap) (k k' : String) :
    EnvMap.get (EnvMap.erase m k) k' = if k' = k then none else EnvMap.get m k' := by
  induction m with
  | nil => simp [EnvMap.get, EnvMap.erase]
  | cons p t ih =>
      obtain ⟨a, v⟩ := p
      by_cases hak : a = k
      · subst hak
        rw [show EnvMap.erase ((a, v) :: t) a = EnvMap.erase t a by simp [EnvMap.erase], ih]
        by_cases hk' : k' = a
        · simp [hk']
        · simp [hk', EnvMap.get, Ne.symm hk']
      · rw [show EnvMap.erase ((a, v) :: t) k = (a, v) :: EnvMap.erase t k by
          simp [EnvMap.erase, hak]]
        by_cases hak' : a = k'
        · have hk'k : ¬(k' = k) := fun h => hak (hak'.trans h)
          simp [EnvMap.get, hak', hk'k]
        · simp [EnvMap.get, hak', ih]

theorem EnvMap.get_append (m₁ m₂ : EnvMap) (k : String) :
    EnvMap.get (m₁ ++ m₂) k =
      match EnvMap.get m₁ k with
      | some v => some v
      | none => EnvMap.get m₂ k := by
  induction m₁ with
  | nil => simp [EnvMap.get]
  | cons p t ih =>
      obtain ⟨a, v⟩ := p
      by_cases h : a = k
      · simp [EnvMap.get, h]
      · simp [EnvMap.get, h, ih]

theorem EnvMap.get_insert_self (m : EnvMap) (k v : String) :
    EnvMap.get (EnvMap.insert m k v) k = some v := by
  rw [EnvMap.insert, EnvMap.get_append, EnvMap.get_erase]
  simp [EnvMap.get]

theorem EnvMap.get_insert_ne (m : EnvMap) (k v k' : String) (h : k' ≠ k) :
    EnvMap.get (EnvMap.insert m k v) k' = EnvMap.get m k' := by
  rw [EnvMap.insert, EnvMap.get_append, EnvMap.get_erase, if_neg h]
  cases hm : EnvMap.get m k' with
  | some w => simp
  | none => simp [EnvMap.get, Ne.symm h]

theorem EnvMap.get_foldl_erase (ks : List String) (m : EnvMap) (k : String) :
    EnvMap.get (ks.foldl (fun acc k => EnvMap.erase acc k) m) k =
      if k ∈ ks then none else EnvMap.get m k := by
  induction ks generalizing m with
  | nil => simp
  | cons a t ih =>
      by_cases hk : k ∈ t
      · simp [List.foldl, ih, hk]
      · by_cases hka : k = a
        · subst hka
          simp [List.foldl, ih, hk, EnvMap.get_erase]
        · simp [List.foldl, ih, hk, EnvMap.get_erase, hka]

theorem EnvMap.copyFrom_system (dst : EnvMap) (w : WorkerAppSpec) :
    EnvMap.copyFrom dst w.systemSecretData =
      EnvMap.insert
        (EnvMap.insert
          (EnvMap.insert dst "COMBINATOR_API_ENDPOINT" w.combinatorEndpoint)
          "RAYSAIL_UID" w.ownerID)
        "RAYSAIL_SECRET_KEY" w.ownerSK := rfl

/-! ## Verification-loop lemmas -/

/-- Abbreviation: both DNS checks of attempt `j` succeed. -/
def checksPass (cd : CustomDomain) (dns : Nat → DNSAttempt) (j : Nat) : Prop :=
  VerifyTXT cd.txtValue (dns j).txt = true ∧ VerifyCNAME cd.target (dns j).cname = true

instance (cd : CustomDomain) (dns : Nat → DNSAttempt) (j : Nat) :
    Decidable (checksPass cd dns j) := by
  unfold checksPass
  infer_instance

theorem verifyAux_all_fail (cd : CustomDomain) (dns : Nat → DNSAttempt) (env : ProvisionEnv)
    (r i : Nat) (h : ∀ j, j < r → ¬ checksPass cd dns (i + j)) :
    verifyAux cd dns env i r =
      { status := DomainStatus.error, attempts := r, waitSeconds := 5 * r,
        provisionCalls := 0, persisted := [DomainStatus.error] } := by
  induction r generalizing i with
  | zero => simp [verifyAux]
  | succ r ih =>
      have h0 : ¬ checksPass cd dns i := by simpa using h 0 (Nat.succ_pos r)
      have hcond : (VerifyTXT cd.txtValue (dns i).txt &&
          VerifyCNAME cd.target (dns i).cname) = false := by
        cases hT : VerifyTXT cd.txtValue (dns i).txt
        · simp
        · cases hC : VerifyCNAME cd.target (dns i).cname
          · simp
          · exact absurd ⟨hT, hC⟩ h0
      have hrest : verifyAux cd dns env (i + 1) r =
          { status := DomainStatus.error, attempts := r, waitSeconds := 5 * r,
            provisionCalls := 0, persisted := [DomainStatus.error] } := by
        apply ih
        intro j hj
        have := h (j + 1) (Nat.succ_lt_succ hj)
        simpa [Nat.add_assoc, Nat.add_comm 1 j] using this
      simp only [verifyAux, hcond, Bool.false_eq_true, if_false, hrest,
        VerifyOutcome.mk.injEq, true_and, and_true]
      omega

theorem verifyAux_first_success (cd : CustomDomain) (dns : Nat → DNSAttempt)
    (env : ProvisionEnv) (k r i : Nat) (hk : k < r)
    (hsucc : checksPass cd dns (i + k))
    (hmin : ∀ j, j < k → ¬ checksPass cd dns (i + j)) :
    verifyAux cd dns env i r =
      if (CreateIngressRoute env).ok then
        { status := DomainStatus.success, attempts := k + 1, waitSeconds := 5 * (k + 1),
          provisionCalls := 1, persisted := [DomainStatus.success] }
      else
        { status := DomainStatus.error, attempts := k + 1, waitSeconds := 5 * (k + 1),
          provisionCalls := 1, persisted := [DomainStatus.success, DomainStatus.error] } := by
  induction k generalizing i r with
  | zero =>
      obtain ⟨r', rfl⟩ : ∃ r', r = r' + 1 := ⟨r - 1, by omega⟩
      have hc : (VerifyTXT cd.txtValue (dns i).txt &&
          VerifyCNAME cd.target (dns i).cname) = true := by
        have := hsucc
        simp only [checksPass, Nat.add_zero] at this
        rw [Bool.and_eq_true]
        exact this
      by_cases hok : (CreateIngressRoute env).ok
      · simp [verifyAux, hc, hok]
      · simp [verifyAux, hc, hok]
  | succ k ih =>
      obtain ⟨r', rfl⟩ : ∃ r', r = r' + 1 := ⟨r - 1, by omega⟩
      have h0 : ¬ checksPass cd dns i := by simpa using hmin 0 (Nat.succ_pos k)
      have hcond : (VerifyTXT cd.txtValue (dns i).txt &&
          VerifyCNAME cd.target (dns i).cname) = false := by
        cases hT : VerifyTXT cd.txtValue (dns i).txt
        · simp
        · cases hC : VerifyCNAME cd.target (dns i).cname
          · simp
          · exact absurd ⟨hT, hC⟩ h0
      have hrest := ih r' (i + 1) (by omega)
        (by simpa [Nat.add_assoc, Nat.add_comm 1 k] using hsucc)
        (fun j hj => by
          have := hmin (j + 1) (Nat.succ_lt_succ hj)
          simpa [Nat.add_assoc, Nat.add_comm 1 j] using this)
      simp only [verifyAux, hcond, Bool.false_eq_true, if_false, hrest]
      by_cases hok : (CreateIngressRoute env).ok
      · simp only [hok, if_true, VerifyOutcome.mk.injEq, true_and, and_true]
        omega
      · simp only [hok, Bool.false_eq_true, if_false, VerifyOutcome.mk.injEq, true_and,
          and_true]
        omega

/-! ## Name-derivation lemmas -/

/-- Splitting a character list at a separator character is unambiguous when the
left part never contains the separator. -/
theorem append_sep_inj (sep : Char) (l₁ r₁ l₂ r₂ : List Char)
    (h₁ : sep ∉ l₁) (h₂ : sep ∉ l₂)
    (h : l₁ ++ sep :: r₁ = l₂ ++ sep :: r₂) : l₁ = l₂ ∧ r₁ = r₂ := by
  induction l₁ generalizing l₂ with
  | nil =>
      cases l₂ with
      | nil => simpa using h
      | cons c t =>
          simp only [List.nil_append, List.cons_append, List.cons.injEq] at h
          exact absurd (h.1 ▸ List.mem_cons_self c t) h₂
  | cons c t ih =>
      cases l₂ with
      | nil =>
          simp only [List.cons_append, List.nil_append, List.cons.injEq] at h
          exact absurd (h.1 ▸ List.mem_cons_self c t) h₁
      | cons d u =>
          simp only [List.cons_append, List.cons.injEq] at h
          obtain ⟨rfl, h'⟩ := h
          have ht : sep ∉ t := fun hm => h₁ (List.mem_cons_of_mem _ hm)
          have hu : sep ∉ u := fun hm => h₂ (List.mem_cons_of_mem _ hm)
          obtain ⟨rfl, hr⟩ := ih u ht hu h'
          exact ⟨rfl, hr⟩

theorem String.eq_of_data_eq (s t : String) (h : s.data = t.data) : s = t := by
  cases s
  cases t
  exact congrArg String.mk h

theorem workerName_data (wid oid : String) :
    (WorkerName wid oid).data = 'w' :: '-' :: (wid.data ++ '-' :: oid.data) := by
  simp [WorkerName, String.data_append]

/-! ## Claim theorems -/

/-- The concrete WorkloadSpec of the spec's worker scenario. -/
def c6Worker : WorkerAppSpec :=
  { workerID := "abc123", ownerID := "u1", ownerSK := "sk", image := "nginx:latest",
    port := 8080, assignedCPU := "", assignedMemory := "", assignedDisk := "",
    maxReplicas := 0, mainRegion := "" }



/-- C6: for workload id "abc123" and owner "u1" the derived name is
"w-abc123-u1"; with image "nginx:latest", port 8080, blank CPU/memory/disk
and max replicas ≤ 0, the built compute resource has 1 replica, CPU "1"
(limit and request alike, the shape uses one quantity for both), memory
"500Mi" and ephemeral storage "2Gi". -/
theorem worker_defaults_scenario (w : WorkerAppSpec)
    (hid : w.workerID = "abc123") (how : w.ownerID = "u1")
    (himg : w.image = "nginx:latest") (hp : w.port = 8080)
    (hc : w.assignedCPU = "") (hm : w.assignedMemory = "") (hd : w.assignedDisk = "")
    (hr : w.maxReplicas ≤ 0) :
    w.name = "w-abc123-u1" ∧
    (buildDeployment w).replicas = 1 ∧
    (buildDeployment w).cpu = "1" ∧
    (buildDeployment w).memory = "500Mi" ∧
    (buildDeployment w).disk = "2Gi" ∧
    (buildDeployment w).image = "nginx:latest" ∧
    (buildDeployment w).port = 8080 := by
  have hrep : ¬ (w.maxReplicas > 0) := by omega
  refine ⟨?_, ?_, ?_, ?_, ?_, ?_, ?_⟩ <;>
    simp [WorkerAppSpec.name, WorkerName, buildDeployment, hid, how, himg, hp, hc, hm,
      hd, hrep]

theorem worker_defaults_scenario_witness :
    c6Worker.name = "w-abc123-u1" ∧
    (buildDeployment c6Worker).replicas = 1 ∧
    (buildDeployment c6Worker).cpu = "1" ∧
    (buildDeployment c6Worker).memory = "500Mi" ∧
    (buildDeployment c6Worker).disk = "2Gi" ∧
    (buildDeployment c6Worker).image = "nginx:latest" ∧
    (buildDeployment c6Worker).port = 8080 :=
  worker_defaults_scenario c6Worker rfl rfl rfl rfl rfl rfl rfl (by decide)

/-- C7 counterexample: the derived-name function is not injective on all
(workloadID, ownerID) pairs — ("a-b", "c") and ("a", "b-c") are distinct
pairs mapping to the same name "w-a-b-c". -/
theorem workerName_not_injective :
    WorkerName "a-b" "c" = WorkerName "a" "b-c" ∧
    (("a-b", "c") : String × String) ≠ ("a", "b-c") := by
  exact ⟨by decide, by decide⟩

/-- C7 (amended): the derived-name function is deterministic — it equals the
literal concatenation "w-{workloadID}-{ownerID}" — and it is injective on
pairs whose workload identifier contains no '-' character (the counterexample
shows injectivity fails once the workload identifier may contain '-'). -/
theorem workerName_det_inj (wid oid w₁ o₁ w₂ o₂ : String)
    (h₁ : '-' ∉ w₁.data) (h₂ : '-' ∉ w₂.data)
    (h : WorkerName w₁ o₁ = WorkerName w₂ o₂) :
    WorkerName wid oid = "w-" ++ wid ++ "-" ++ oid ∧ (w₁ = w₂ ∧ o₁ = o₂) := by
  refine ⟨rfl, ?_⟩
  have hd := congrArg String.data h
  rw [workerName_data, workerName_data] at hd
  simp only [List.cons.injEq, true_and] at hd
  obtain ⟨hw, ho⟩ := append_sep_inj '-' w₁.data o₁.data w₂.data o₂.data h₁ h₂ hd
  exact ⟨String.eq_of_data_eq _ _ hw, String.eq_of_data_eq _ _ ho⟩

theorem workerName_det_inj_witness :
    '-' ∉ ("abc123" : String).data ∧
    (WorkerName "abc123" "u1" = "w-" ++ "abc123" ++ "-" ++ "u1" ∧
      (("abc123" : String) = "abc123" ∧ ("u1" : String) = "u1")) :=
  ⟨by decide,
   workerName_det_inj "abc123" "u1" "abc123" "u1" "abc123" "u1"
     (by decide) (by decide) rfl⟩

/-- C8: the ensure-network-entry-point step creates the Service only when
absent and never updates an existing one — a successful call against an
existing Service issues no write operation and leaves it unchanged, while a
not-found `Get` leads to exactly one create. -/
theorem ensureService_create_only (w : WorkerAppSpec) (existing : ServiceShape) :
    EnsureService w (K8sGet.found existing) = Except.ok ([], existing) ∧
    EnsureService w K8sGet.notFound =
      Except.ok ([ServiceOp.create w.name w.port], { name := w.name, port := w.port }) :=
  ⟨rfl, rfl⟩

/-- C9: deleting a claim removes the claim record and then best-effort deletes
the service, routing entry and certificate under the deterministic derived
name; the result is independent of whether those sub-resources exist, and only
a database-record delete failure yields an error. -/
theorem deleteCustomDomain_best_effort (cdid : String)
    (svcE routeE certE svcE' routeE' certE' : Bool) :
    DeleteCustomDomain cdid true svcE routeE certE =
      Except.ok [CDDeleteOp.deleteClaimRecord cdid,
                 CDDeleteOp.deleteService (customDomainResourceName cdid),
                 CDDeleteOp.deleteIngressRoute (customDomainResourceName cdid),
                 CDDeleteOp.deleteCertificate (customDomainResourceName cdid)] ∧
    DeleteCustomDomain cdid true svcE routeE certE =
      DeleteCustomDomain cdid true svcE' routeE' certE' ∧
    DeleteCustomDomain cdid false svcE routeE certE =
      Except.error "delete custom domain record failed" :=
  ⟨rfl, rfl, rfl⟩

/-- C1: whenever the ensure-config-store and ensure-secret-store steps of a
reconcile pass both succeed, each reserved key maps in the resulting secret
store to its system-derived value — in the pre-existing-store branch and in
the freshly-created branch alike — is absent from the resulting general
config store even if previously present there, and every non-reserved key
already in the secret store keeps its previous value. -/
theorem reconcile_reserved_keys (w : WorkerAppSpec) (cfgSt : K8sGet EnvMap)
    (prev cfg sec secNew : EnvMap) (dirty : Bool) (k knr : String)
    (hc : EnsureConfigMap w cfgSt = Except.ok (cfg, dirty))
    (hs : EnsureSecret w (K8sGet.found prev) = Except.ok sec)
    (hsNew : EnsureSecret w K8sGet.notFound = Except.ok secNew)
    (hk : k ∈ ReservedEnvKeys) (hknr : knr ∉ ReservedEnvKeys) :
    EnvMap.get sec "COMBINATOR_API_ENDPOINT" = some w.combinatorEndpoint ∧
    EnvMap.get sec "RAYSAIL_UID" = some w.ownerID ∧
    EnvMap.get sec "RAYSAIL_SECRET_KEY" = some w.ownerSK ∧
    EnvMap.get secNew "COMBINATOR_API_ENDPOINT" = some w.combinatorEndpoint ∧
    EnvMap.get secNew "RAYSAIL_UID" = some w.ownerID ∧
    EnvMap.get secNew "RAYSAIL_SECRET_KEY" = some w.ownerSK ∧
    EnvMap.get cfg k = none ∧
    EnvMap.get sec knr = EnvMap.get prev knr := by
  have hsec : sec = EnvMap.copyFrom prev w.systemSecretData := by
    simpa [EnsureSecret] using hs.symm
  have hsecNew : secNew = w.systemSecretData := by
    simpa [EnsureSecret] using hsNew.symm
  subst hsec
  subst hsecNew
  rw [EnvMap.copyFrom_system]
  simp only [ReservedEnvKeys, List.mem_cons, List.mem_singleton,
    List.not_mem_nil, not_or, or_false] at hknr
  refine ⟨?_, ?_, ?_, rfl, rfl, rfl, ?_, ?_⟩
  · rw [EnvMap.get_insert_ne _ _ _ _ (by decide),
      EnvMap.get_insert_ne _ _ _ _ (by decide), EnvMap.get_insert_self]
  · rw [EnvMap.get_insert_ne _ _ _ _ (by decide), EnvMap.get_insert_self]
  · rw [EnvMap.get_insert_self]
  · cases cfgSt with
    | err => exact absurd hc (by simp [EnsureConfigMap])
    | notFound =>
        have hcfg : cfg = [] := by
          have := hc
          simp only [EnsureConfigMap, Except.ok.injEq, Prod.mk.injEq] at this
          exact this.1.symm
        subst hcfg
        rfl
    | found existing =>
        have hcfg : cfg =
            ReservedEnvKeys.foldl (fun acc k => EnvMap.erase acc k) existing := by
          have := hc
          simp only [EnsureConfigMap, Except.ok.injEq, Prod.mk.injEq] at this
          exact this.1.symm
        subst hcfg
        rw [EnvMap.get_foldl_erase, if_pos hk]
  · rw [EnvMap.get_insert_ne _ _ _ _ (by simp [hknr]),
      EnvMap.get_insert_ne _ _ _ _ (by simp [hknr]),
      EnvMap.get_insert_ne _ _ _ _ (by simp [hknr])]

theorem reconcile_reserved_keys_witness :
    (EnsureConfigMap c6Worker (K8sGet.found [("RAYSAIL_UID", "x"), ("FOO", "bar")]) =
       Except.ok ([("FOO", "bar")], true) ∧
     EnsureSecret c6Worker (K8sGet.found [("FOO", "bar")]) =
       Except.ok (EnvMap.copyFrom [("FOO", "bar")] c6Worker.systemSecretData) ∧
     EnsureSecret c6Worker K8sGet.notFound = Except.ok c6Worker.systemSecretData ∧
     "RAYSAIL_UID" ∈ ReservedEnvKeys ∧ "FOO" ∉ ReservedEnvKeys) ∧
    (EnvMap.get (EnvMap.copyFrom [("FOO", "bar")] c6Worker.systemSecretData)
        "COMBINATOR_API_ENDPOINT" = some c6Worker.combinatorEndpoint ∧
     EnvMap.get (EnvMap.copyFrom [("FOO", "bar")] c6Worker.systemSecretData)
        "RAYSAIL_UID" = some c6Worker.ownerID ∧
     EnvMap.get (EnvMap.copyFrom [("FOO", "bar")] c6Worker.systemSecretData)
        "RAYSAIL_SECRET_KEY" = some c6Worker.ownerSK ∧
     EnvMap.get c6Worker.systemSecretData "COMBINATOR_API_ENDPOINT" =
        some c6Worker.combinatorEndpoint ∧
     EnvMap.get c6Worker.systemSecretData "RAYSAIL_UID" = some c6Worker.ownerID ∧
     EnvMap.get c6Worker.systemSecretData "RAYSAIL_SECRET_KEY" = some c6Worker.ownerSK ∧
     EnvMap.get [("FOO", "bar")] "RAYSAIL_UID" = none ∧
     EnvMap.get (EnvMap.copyFrom [("FOO", "bar")] c6Worker.systemSecretData) "FOO" =
        EnvMap.get [("FOO", "bar")] "FOO") :=
  ⟨⟨rfl, rfl, rfl, by decide, by decide⟩,
   reconcile_reserved_keys c6Worker
     (K8sGet.found [("RAYSAIL_UID", "x"), ("FOO", "bar")])
     [("FOO", "bar")] [("FOO", "bar")]
     (EnvMap.copyFrom [("FOO", "bar")] c6Worker.systemSecretData)
     c6Worker.systemSecretData true "RAYSAIL_UID" "FOO"
     rfl rfl rfl (by decide) (by decide)⟩

/-- C10: when the sync-secret Job finds the workload's secret store and the
update succeeds, the data written is exactly the caller-supplied map — any
key absent from that map, the reserved keys included, is absent afterwards —
and the Job returns no error; when the secret store cannot be fetched
(not-found or any other error) the Job returns nil and writes nothing. -/
theorem syncSecret_replaces_data (jobData prev : EnvMap) (k : String)
    (hk : EnvMap.get jobData k = none) :
    (syncSecretDo jobData (K8sGet.found prev) true).written = some jobData ∧
    (syncSecretDo jobData (K8sGet.found prev) true).retErr = false ∧
    ((syncSecretDo jobData (K8sGet.found prev) true).written.bind
      (fun d => EnvMap.get d k)) = none ∧
    syncSecretDo jobData K8sGet.notFound true =
      { written := none, retErr := false, dbStatus := none } ∧
    syncSecretDo jobData K8sGet.err true =
      { written := none, retErr := false, dbStatus := none } := by
  refine ⟨rfl, rfl, ?_, rfl, rfl⟩
  simpa [syncSecretDo] using hk

theorem syncSecret_replaces_data_witness :
    EnvMap.get [("A", "1")] "RAYSAIL_UID" = none ∧
    ((syncSecretDo [("A", "1")] (K8sGet.found [("RAYSAIL_UID", "u"), ("B", "2")])
        true).written = some [("A", "1")] ∧
     (syncSecretDo [("A", "1")] (K8sGet.found [("RAYSAIL_UID", "u"), ("B", "2")])
        true).retErr = false ∧
     ((syncSecretDo [("A", "1")] (K8sGet.found [("RAYSAIL_UID", "u"), ("B", "2")])
        true).written.bind (fun d => EnvMap.get d "RAYSAIL_UID")) = none ∧
     syncSecretDo [("A", "1")] K8sGet.notFound true =
       { written := none, retErr := false, dbStatus := none } ∧
     syncSecretDo [("A", "1")] K8sGet.err true =
       { written := none, retErr := false, dbStatus := none }) :=
  ⟨by decide,
   syncSecret_replaces_data [("A", "1")] [("RAYSAIL_UID", "u"), ("B", "2")]
     "RAYSAIL_UID" (by decide)⟩

/-- C2: when both DNS checks first hold on attempt k+1 (0-based index k) with
k < 12, the run stops after exactly k+1 attempts, persists `success` as the
first new status (the pending claim transitions to `success`), and invokes
provisioning exactly once. -/
theorem verification_first_success (cd : CustomDomain) (dns : Nat → DNSAttempt)
    (env : ProvisionEnv) (k : Nat) (hk : k < 12)
    (hsucc : checksPass cd dns k)
    (hmin : ∀ j, j < k → ¬ checksPass cd dns j) :
    (StartVerification cd dns env).attempts = k + 1 ∧
    (StartVerification cd dns env).provisionCalls = 1 ∧
    (StartVerification cd dns env).persisted.head? = some DomainStatus.success := by
  have h := verifyAux_first_success cd dns env k 12 0 hk
    (by simpa using hsucc) (fun j hj => by simpa using hmin j hj)
  rw [StartVerification] at *
  rw [h]
  by_cases hok : (CreateIngressRoute env).ok <;> simp [hok]

theorem verification_first_success_witness :
    (2 < 12 ∧
     checksPass (NewCustomDomain "cd1" "tok" "u1" "example.com" "app.svc.example.net")
       (fun j => if j < 2 then { txt := none, cname := none }
                 else { txt := some ["combinator-verify=tok"],
                        cname := some "app.svc.example.net." }) 2) ∧
    ((StartVerification (NewCustomDomain "cd1" "tok" "u1" "example.com" "app.svc.example.net")
       (fun j => if j < 2 then { txt := none, cname := none }
                 else { txt := some ["combinator-verify=tok"],
                        cname := some "app.svc.example.net." })
       { svcOk := true, certOk := true, routeOk := true }).attempts = 2 + 1 ∧
     (StartVerification (NewCustomDomain "cd1" "tok" "u1" "example.com" "app.svc.example.net")
       (fun j => if j < 2 then { txt := none, cname := none }
                 else { txt := some ["combinator-verify=tok"],
                        cname := some "app.svc.example.net." })
       { svcOk := true, certOk := true, routeOk := true }).provisionCalls = 1 ∧
     (StartVerification (NewCustomDomain "cd1" "tok" "u1" "example.com" "app.svc.example.net")
       (fun j => if j < 2 then { txt := none, cname := none }
                 else { txt := some ["combinator-verify=tok"],
                        cname := some "app.svc.example.net." })
       { svcOk := true, certOk := true, routeOk := true }).persisted.head? =
         some DomainStatus.success) :=
  ⟨⟨by decide, by decide⟩,
   verification_first_success
     (NewCustomDomain "cd1" "tok" "u1" "example.com" "app.svc.example.net")
     (fun j => if j < 2 then { txt := none, cname := none }
               else { txt := some ["combinator-verify=tok"],
                      cname := some "app.svc.example.net." })
     { svcOk := true, certOk := true, routeOk := true } 2
     (by decide) (by decide) (by decide)⟩

/-- C3: when the checks never jointly succeed in the 12-attempt budget, the
run performs exactly 12 attempts, sleeps 5 s before each one (60 s total),
finishes with status `error`, persists only `error`, and never invokes
provisioning; a DNS lookup error yields the same per-check result (`false`)
as a non-matching record, so it cannot end the loop early. -/
theorem verification_exhaustion (cd : CustomDomain) (dns : Nat → DNSAttempt)
    (env : ProvisionEnv)
    (h : ∀ j, j < 12 → ¬ checksPass cd dns j) :
    StartVerification cd dns env =
      { status := DomainStatus.error, attempts := 12, waitSeconds := 60,
        provisionCalls := 0, persisted := [DomainStatus.error] } ∧
    VerifyTXT cd.txtValue none = false ∧
    VerifyCNAME cd.target none = false := by
  refine ⟨?_, rfl, rfl⟩
  have h12 := verifyAux_all_fail cd dns env 12 0 (fun j hj => by simpa using h j hj)
  rw [StartVerification, h12]

theorem verification_exhaustion_witness :
    StartVerification (NewCustomDomain "cd1" "tok" "u1" "example.com" "app.svc.example.net")
      (fun _ => { txt := none, cname := none })
      { svcOk := true, certOk := true, routeOk := true } =
      { status := DomainStatus.error, attempts := 12, waitSeconds := 60,
        provisionCalls := 0, persisted := [DomainStatus.error] } ∧
    VerifyTXT (NewCustomDomain "cd1" "tok" "u1" "example.com"
      "app.svc.example.net").txtValue none = false ∧
    VerifyCNAME (NewCustomDomain "cd1" "tok" "u1" "example.com"
      "app.svc.example.net").target none = false :=
  verification_exhaustion
    (NewCustomDomain "cd1" "tok" "u1" "example.com" "app.svc.example.net")
    (fun _ => { txt := none, cname := none })
    { svcOk := true, certOk := true, routeOk := true }
    (fun j hj => by simp [checksPass, VerifyTXT])

/-- C4: when verification first succeeds on attempt k+1 ≤ 12 but provisioning
fails, the run's final status is `error` and the persisted history is
`success` then `error` (the claim does not stay `success`); within
provisioning, the certificate step is attempted only if the service step
succeeded and the routing step only if both earlier steps succeeded, so a
failure aborts the remaining creation steps. -/
theorem provisioning_failure_flips_error (cd : CustomDomain) (dns : Nat → DNSAttempt)
    (env : ProvisionEnv) (k : Nat) (hk : k < 12)
    (hsucc : checksPass cd dns k)
    (hmin : ∀ j, j < k → ¬ checksPass cd dns j)
    (hfail : (env.svcOk && env.certOk && env.routeOk) = false) :
    (StartVerification cd dns env).status = DomainStatus.error ∧
    (StartVerification cd dns env).persisted =
      [DomainStatus.success, DomainStatus.error] ∧
    (CreateIngressRoute env).ok = false ∧
    (CreateIngressRoute env).certAttempted = env.svcOk ∧
    (CreateIngressRoute env).routeAttempted = (env.svcOk && env.certOk) := by
  have h := verifyAux_first_success cd dns env k 12 0 hk
    (by simpa using hsucc) (fun j hj => by simpa using hmin j hj)
  have hok : (CreateIngressRoute env).ok = false := by
    obtain ⟨sv, ce, ro⟩ := env
    cases sv <;> cases ce <;> cases ro <;> simp_all [CreateIngressRoute]
  have hca : (CreateIngressRoute env).certAttempted = env.svcOk := by
    obtain ⟨sv, ce, ro⟩ := env
    cases sv <;> cases ce <;> simp [CreateIngressRoute]
  have hra : (CreateIngressRoute env).routeAttempted = (env.svcOk && env.certOk) := by
    obtain ⟨sv, ce, ro⟩ := env
    cases sv <;> cases ce <;> simp [CreateIngressRoute]
  refine ⟨?_, ?_, hok, hca, hra⟩ <;> rw [StartVerification, h] <;> simp [hok]

theorem provisioning_failure_flips_error_witness :
    (0 < 12 ∧
     checksPass (NewCustomDomain "cd1" "tok" "u1" "example.com" "app.svc.example.net")
       (fun _ => { txt := some ["combinator-verify=tok"],
                   cname := some "app.svc.example.net." }) 0 ∧
     ((true && false && true) = false)) ∧
    ((StartVerification (NewCustomDomain "cd1" "tok" "u1" "example.com" "app.svc.example.net")
        (fun _ => { txt := some ["combinator-verify=tok"],
                    cname := some "app.svc.example.net." })
        { svcOk := true, certOk := false, routeOk := true }).status = DomainStatus.error ∧
     (StartVerification (NewCustomDomain "cd1" "tok" "u1" "example.com" "app.svc.example.net")
        (fun _ => { txt := some ["combinator-verify=tok"],
                    cname := some "app.svc.example.net." })
        { svcOk := true, certOk := false, routeOk := true }).persisted =
          [DomainStatus.success, DomainStatus.error] ∧
     (CreateIngressRoute { svcOk := true, certOk := false, routeOk := true }).ok = false ∧
     (CreateIngressRoute { svcOk := true, certOk := false, routeOk := true }).certAttempted =
       true ∧
     (CreateIngressRoute { svcOk := true, certOk := false, routeOk := true }).routeAttempted =
       (true && false)) :=
  ⟨⟨by decide, by decide, by decide⟩,
   provisioning_failure_flips_error
     (NewCustomDomain "cd1" "tok" "u1" "example.com" "app.svc.example.net")
     (fun _ => { txt := some ["combinator-verify=tok"],
                 cname := some "app.svc.example.net." })
     { svcOk := true, certOk := false, routeOk := true } 0
     (by decide) (by decide) (fun j hj => absurd hj (by omega)) (by decide)⟩

/-- C5 counterexample: for domain "example.com" claim creation generates the
TXT record name "_combinator-verify.example.com", not "_verify.example.com"
as the spec's concrete scenario states. -/
theorem newCustomDomain_txtName_counterexample :
    (NewCustomDomain "cd1" "tok" "u1" "example.com" "app.svc.example.net").txtName =
      "_combinator-verify.example.com" ∧
    (NewCustomDomain "cd1" "tok" "u1" "example.com" "app.svc.example.net").txtName ≠
      "_verify.example.com" :=
  ⟨rfl, by decide⟩

/-- C5 (amended): for domain "example.com" with target "app.svc.example.net",
claim creation generates the TXT record name "_combinator-verify.example.com"
and initial status `pending`; when DNS returns the exact expected TXT value
and a CNAME of "app.svc.example.net." (trailing dot), both checks pass under
trailing-dot normalization and the run's status becomes `success`. -/
theorem custom_domain_concrete_scenario :
    (NewCustomDomain "cd1" "tok" "u1" "example.com" "app.svc.example.net").txtName =
      "_combinator-verify.example.com" ∧
    (NewCustomDomain "cd1" "tok" "u1" "example.com" "app.svc.example.net").status =
      DomainStatus.pending ∧
    VerifyTXT (NewCustomDomain "cd1" "tok" "u1" "example.com"
      "app.svc.example.net").txtValue (some ["combinator-verify=tok"]) = true ∧
    VerifyCNAME (NewCustomDomain "cd1" "tok" "u1" "example.com"
      "app.svc.example.net").target (some "app.svc.example.net.") = true ∧
    (StartVerification (NewCustomDomain "cd1" "tok" "u1" "example.com" "app.svc.example.net")
      (fun _ => { txt := some ["combinator-verify=tok"],
                  cname := some "app.svc.example.net." })
      { svcOk := true, certOk := true, routeOk := true }).status =
        DomainStatus.success :=
  ⟨rfl, rfl, by decide, by decide, by decide⟩

end Console
